import Mathlib

/-!
Shallow embedding of the caching/request core of `src/services/news_service.py`
(class `NewsService`), together with theorems settling the spec claims about it.

Python dicts are modelled as insertion-ordered association lists with distinct
keys; machine-level details (real MD5, HTTP transport) that no claim depends on
beyond purity are modelled as concrete pure functions, as noted at each site.
-/

/-- A primitive parameter value in a request parameter map: the orchestrator
only ever puts strings and integers into `params`. -/
inductive PVal where
  | s (v : String)
  | n (v : Int)
deriving DecidableEq, Repr

/-- A Python dict of request parameters: an insertion-ordered association list
whose keys are pairwise distinct (dict semantics). -/
abbrev Params := List (String × PVal)

/-- Python dict update `{**p, "k": v}`: overwrite in place when `k` is already bound (Python dicts
keep the original insertion position on overwrite), otherwise append at the end. -/
def pySet (p : Params) (k : String) (v : PVal) : Params :=
  if p.any (fun kv => kv.1 == k) then
    p.map (fun kv => if kv.1 == k then (k, v) else kv)
  else
    p ++ [(k, v)]

/-- Drop every binding of key `k`; used to state what a parameter map looks like
with the credential entry removed. -/
def stripKey (k : String) (p : Params) : Params :=
  p.filter (fun kv => kv.1 != k)

/-- Lexicographic code-point order on char lists: exactly how Python compares
two `str` values. -/
def charListLe : List Char → List Char → Bool
  | [], _ => true
  | _ :: _, [] => false
  | a :: as, b :: bs =>
    if a.toNat < b.toNat then true
    else if b.toNat < a.toNat then false
    else charListLe as bs

/-- Python's `<=` on strings (code-point lexicographic order). -/
def keyLe (a b : String) : Bool := charListLe a.toList b.toList

/-- One step of insertion sort with respect to `keyLe` on the binding's key. -/
def insertSorted (kv : String × PVal) : Params → Params
  | [] => [kv]
  | x :: xs => if keyLe kv.1 x.1 then kv :: x :: xs else x :: insertSorted kv xs

/-- The expression `sorted(params.items())` of news_service.py line 25: sort the bindings by
key. Python compares the `(key, value)` tuples lexicographically, but dict keys
are pairwise distinct, so ordering by key alone is the same order. -/
def sortParams (p : Params) : Params := p.foldr insertSorted []

/-- How `json.dumps` renders one primitive value. -/
def dumpVal : PVal → String
  | .s v => "\"" ++ v ++ "\""
  | .n v => toString v

/-- The call `json.dumps(sorted_params, sort_keys=True)` (news_service.py line 26) on a
flat map of primitives. String escaping is omitted: the orchestrator's keys and
values never contain characters that json.dumps would escape, and no claim
depends on the escape rules. -/
def jsonDumps (p : Params) : String :=
  "\x7b" ++ String.intercalate ", "
    ((sortParams p).map (fun kv => "\"" ++ kv.1 ++ "\": " ++ dumpVal kv.2)) ++ "\x7d"

/-- The digest `hashlib.md5(...).hexdigest()`, modelled as a concrete pure function of the
input string. Every claim about the key depends only on the digest being a
deterministic function of its input, not on the md5 algorithm itself. -/
def md5hex (s : String) : String :=
  let h := s.toList.foldl (fun (a : Nat) c => (a * 131 + c.toNat) % (2 ^ 64)) 5381
  (Nat.toDigits 16 h).asString

/-- Source method `NewsService._generate_cache_key` (news_service.py lines 22–27). -/
def generate_cache_key (endpoint : String) (params : Params) : String :=
  let key_string := endpoint ++ "_" ++ jsonDumps params
  md5hex key_string

/-- Python's `str.lower()`. The strings the service lowers are the ASCII
titles/names/queries of the claims; character lowering is `Char.toLower`. -/
def pyLower (s : String) : String := (s.toList.map Char.toLower).asString

/-- Helper for `pyIn`: is `n` a contiguous segment of the second list? -/
def infixOf (n : List Char) : List Char → Bool
  | [] => n.isPrefixOf []
  | c :: rest => n.isPrefixOf (c :: rest) || infixOf n rest

/-- Python's `needle in haystack` on strings (substring containment; the empty
needle is contained in everything). -/
def pyIn (needle hay : String) : Bool := infixOf needle.toList hay.toList

/-- The `source` sub-document of an article, as the author filter reads it:
only `name` matters to the filter; `url` stands for the other keys the real
document may carry (it only influences the dict's truthiness). -/
structure Source where
  name : Option String
  url : Option String
deriving DecidableEq, Repr

/-- An upstream article document. The filters read only `title` and `source`;
`rest` stands opaquely for the remaining pass-through fields (description,
content, url, image, publishedAt). `title` is optional because the upstream
document is not validated: `article["title"]` can raise `KeyError`. -/
structure Article where
  title : Option String
  source : Option Source
  rest : String
deriving DecidableEq, Repr

/-- The JSON document an upstream 2xx response carries. `articles` is optional
because the orchestrator explicitly guards with `if "articles" in result`. -/
structure NewsData where
  totalArticles : Int
  articles : Option (List Article)
deriving DecidableEq, Repr

/-- The annotated copy `{**data, "from_cache": flag}`: the cached document plus the per-call
annotation. The flag lives only here, never in the cache. -/
structure Response where
  data : NewsData
  from_cache : Bool
deriving DecidableEq, Repr

/-- One entry of the `cachetools.TTLCache`: the key, the insertion time
(which starts the entry's TTL clock) and the stored raw document. -/
structure Entry where
  key : String
  insertedAt : Nat
  value : NewsData
deriving DecidableEq, Repr

/-- The TTLCache contents in insertion order (oldest first), as maintained by
its ordered link list. Time is a logical clock passed in by the caller. -/
abbrev Cache := List Entry

/-- cachetools expiry predicate: an entry is live while `now < insertedAt + ttl`. -/
def entryLive (ttl now : Nat) (e : Entry) : Bool := now < e.insertedAt + ttl

/-- TTLCache `__contains__` / `__getitem__` combined (the code checks
membership and then reads): the entry, treated as absent once expired.
Expiry is evaluated lazily at lookup; the lookup itself does not mutate. -/
def cacheGet (ttl now : Nat) (k : String) (c : Cache) : Option NewsData :=
  match c.find? (fun e => e.key == k) with
  | some e => if entryLive ttl now e then some e.value else none
  | none => none

/-- TTLCache `expire`: drop every expired entry (runs inside `__setitem__`). -/
def cacheExpire (ttl now : Nat) (c : Cache) : Cache := c.filter (entryLive ttl now)

/-- TTLCache `__setitem__` (`self.cache[cache_key] = data`): purge expired
entries, unlink an existing binding of the key (a re-set key moves to the end
with a fresh TTL), evict oldest-inserted entries while the insert would exceed
capacity, then append the new entry at the end. -/
def cacheSet (maxsize ttl now : Nat) (k : String) (v : NewsData) (c : Cache) : Cache :=
  let others := (cacheExpire ttl now c).filter (fun e => e.key != k)
  let kept := if others.length ≥ maxsize then others.drop (others.length + 1 - maxsize) else others
  kept ++ [⟨k, now, v⟩]

/-- TTLCache `__len__` (`len(self.cache)`): cachetools expires first, so the
reported size counts live entries only. -/
def cacheSize (ttl now : Nat) (c : Cache) : Nat := (cacheExpire ttl now c).length

/-- The mutable state of a `NewsService` instance: the cache plus the two
counters (news_service.py lines 13–17). -/
structure ServiceState where
  cache : Cache
  cache_hits : Nat
  cache_misses : Nat
deriving DecidableEq, Repr

/-- What `e.response.json()` yields on a non-2xx body: a parsed JSON object
whose optional `message` field is read with `.get("message", ...)`, or a parse
failure (`except: pass`). -/
inductive ErrBody where
  | validJson (message : Option String)
  | invalidJson
deriving DecidableEq, Repr

/-- The outcome of one upstream HTTP attempt, as `_make_request` distinguishes
them: a 2xx JSON document, an `httpx.HTTPStatusError` from
`raise_for_status()`, an `httpx.RequestError` (timeout / connection), or any
other exception during the call lifecycle. -/
inductive Outcome where
  | ok (data : NewsData)
  | httpError (status : Nat) (body : ErrBody)
  | networkError (msg : String)
  | otherError (msg : String)
deriving DecidableEq, Repr

/-- A raised Python exception as the caller observes it: a generic `Exception`
carrying a message (all three error kinds `_make_request` raises), or a raw
`KeyError` carrying the missing key. -/
inductive PyErr where
  | exc (msg : String)
  | keyError (key : String)
deriving DecidableEq, Repr

/-- The upstream network, modelled as an oracle from the endpoint and the
outgoing parameter map (credential included) to the attempt's outcome. -/
abbrev Upstream := String → Params → Outcome

instance : DecidableEq (Except PyErr Response) := fun a b =>
  match a, b with
  | .ok x, .ok y => if h : x = y then isTrue (by simp [h]) else isFalse (by simp [h])
  | .ok _, .error _ => isFalse (by simp)
  | .error _, .ok _ => isFalse (by simp)
  | .error x, .error y => if h : x = y then isTrue (by simp [h]) else isFalse (by simp [h])

/-- The observable result of one orchestrator operation: the returned document
or raised error, the service state afterwards, and whether the upstream client
was invoked. -/
structure StepOut where
  res : Except PyErr Response
  state : ServiceState
  upstreamCalled : Bool
deriving DecidableEq, Repr

/-- The message built in the `except httpx.HTTPStatusError` branch
(news_service.py lines 59–66): the status-code prefix, extended with the
upstream message only when the error body parses as JSON (`.get("message",
"Unknown error")`); an unparseable body leaves the prefix alone. -/
def httpErrorMsg (status : Nat) (body : ErrBody) : String :=
  let error_msg := "GNews API Error: " ++ toString status
  match body with
  | .validJson m => error_msg ++ " - " ++ m.getD "Unknown error"
  | .invalidJson => error_msg

/-- Source method `NewsService._make_request` (news_service.py lines 29–70). -/
def make_request (u : Upstream) (api_key : String) (ttl maxsize now : Nat)
    (endpoint : String) (params : Params) (st : ServiceState) : StepOut :=
  let cache_key := generate_cache_key endpoint params
  match cacheGet ttl now cache_key st.cache with
  | some cached_data =>
    { res := .ok { data := cached_data, from_cache := true },
      state := { st with cache_hits := st.cache_hits + 1 },
      upstreamCalled := false }
  | none =>
    let params_with_key := pySet params "apikey" (.s api_key)
    match u endpoint params_with_key with
    | .ok data =>
      { res := .ok { data := data, from_cache := false },
        state := { st with
          cache := cacheSet maxsize ttl now cache_key data st.cache,
          cache_misses := st.cache_misses + 1 },
        upstreamCalled := true }
    | .httpError status body =>
      { res := .error (.exc (httpErrorMsg status body)), state := st, upstreamCalled := true }
    | .networkError m =>
      { res := .error (.exc ("Network error: Unable to reach GNews API - " ++ m)),
        state := st, upstreamCalled := true }
    | .otherError m =>
      { res := .error (.exc ("Request error: " ++ m)), state := st, upstreamCalled := true }

/-- Source method `NewsService.get_top_headlines` (news_service.py lines 72–90). `category`
is added only when truthy (absent or empty means omitted). -/
def get_top_headlines (u : Upstream) (api_key : String) (ttl maxsize now : Nat)
    (count : Nat) (lang country : String) (category : Option String)
    (st : ServiceState) : StepOut :=
  let params : Params :=
    [("max", .n (Int.ofNat (min count 100))), ("country", .s country), ("lang", .s lang)]
  let params :=
    match category with
    | some c => if c != "" then pySet params "category" (.s c) else params
    | none => params
  make_request u api_key ttl maxsize now "top-headlines" params st

/-- The parameter dict `search_articles` builds (news_service.py lines 101–108). -/
def searchParams (query : String) (count : Nat) (language country sort_by : String) : Params :=
  [("q", .s query), ("max", .n (Int.ofNat (min count 100))),
   ("lang", .s language), ("country", .s country), ("sortby", .s sort_by)]

/-- Source method `NewsService.search_articles` (news_service.py lines 92–109). -/
def search_articles (u : Upstream) (api_key : String) (ttl maxsize now : Nat)
    (query : String) (count : Nat) (language country sort_by : String)
    (st : ServiceState) : StepOut :=
  make_request u api_key ttl maxsize now "search"
    (searchParams query count language country sort_by) st

/-- Did the operation raise (propagate an exception to the caller)? -/
def isError : Except PyErr Response → Bool
  | .error _ => true
  | .ok _ => false

/-- The `for article in result["articles"]` loop of `find_by_title`
(news_service.py lines 117–130): `article["title"]` raises `KeyError` when the
field is missing; otherwise keep the article when its lowered title equals
(`exact`) or contains (substring, non-exact) the lowered search title. -/
def titleFilter (search_title : String) (exact : Bool) : List Article → Except PyErr (List Article)
  | [] => .ok []
  | article :: rest =>
    match article.title with
    | none => .error (.keyError "title")
    | some t =>
      let article_title := (pyLower t)
      let m := if exact then article_title == search_title else pyIn search_title article_title
      match titleFilter search_title exact rest with
      | .error e => .error e
      | .ok tail => .ok (if m then article :: tail else tail)

/-- Source method `NewsService.find_by_title` (news_service.py lines 110–134). -/
def find_by_title (u : Upstream) (api_key : String) (ttl maxsize now : Nat)
    (title : String) (exact : Bool) (st : ServiceState) : StepOut :=
  let query := if exact then "\"" ++ title ++ "\"" else title
  let out := search_articles u api_key ttl maxsize now query 50 "en" "us" "relevance" st
  match out.res with
  | .error _ => out
  | .ok result =>
    match result.data.articles with
    | none => out
    | some arts =>
      match titleFilter (pyLower title) exact arts with
      | .error e => { out with res := .error e }
      | .ok filtered_articles =>
        { out with res := .ok { result with data :=
            { result.data with
              articles := some filtered_articles,
              totalArticles := Int.ofNat filtered_articles.length } } }

/-- The guard of the author filter (news_service.py lines 146–148):
`article.get("source") and article["source"].get("name") and author_lower in
article["source"]["name"].lower()`. A missing source, a source dict with no
truthy content, a missing name, or an empty name are all falsy and excluded. -/
def authorMatch (author_lower : String) (article : Article) : Bool :=
  match article.source with
  | none => false
  | some src =>
    (src.name.isSome || src.url.isSome) &&
      (match src.name with
       | some n => n != "" && pyIn author_lower (pyLower n)
       | none => false)

/-- The `for article in result["articles"]` loop of `find_by_author`
(news_service.py lines 144–152): append each match and stop as soon as the
accumulated list reaches `count` (the `break` fires after the append). -/
def authorLoop (author_lower : String) (count : Nat) (acc : List Article) :
    List Article → List Article
  | [] => acc
  | article :: rest =>
    if authorMatch author_lower article then
      let acc' := acc ++ [article]
      if acc'.length ≥ count then acc' else authorLoop author_lower count acc' rest
    else authorLoop author_lower count acc rest

/-- Source method `NewsService.find_by_author` (news_service.py lines 136–158). -/
def find_by_author (u : Upstream) (api_key : String) (ttl maxsize now : Nat)
    (author : String) (count : Nat) (st : ServiceState) : StepOut :=
  let out := search_articles u api_key ttl maxsize now author 100 "en" "us" "relevance" st
  match out.res with
  | .error _ => out
  | .ok result =>
    match result.data.articles with
    | none => out
    | some arts =>
      let filtered_articles := authorLoop (pyLower author) count [] arts
      { out with res := .ok { result with data :=
          { result.data with
            articles := some filtered_articles,
            totalArticles := Int.ofNat filtered_articles.length } } }

-- Scratch check while developing:

/-- The pointwise predicate `find_by_title`'s loop applies to one article with
a present title: case-insensitive equality when `exact`, case-insensitive
substring containment otherwise (false when the title key is absent — though
the loop raises `KeyError` there instead of skipping). -/
def titleMatches (title : String) (exact : Bool) (a : Article) : Bool :=
  match a.title with
  | some t => if exact then pyLower t == pyLower title else pyIn (pyLower title) (pyLower t)
  | none => false

/-! ## Helper lemmas about the string order and the sort -/

theorem charToNat_inj {a b : Char} (h : a.toNat = b.toNat) : a = b :=
  Char.eq_of_val_eq (UInt32.toNat.inj h)

theorem string_toList_inj {s t : String} (h : s.toList = t.toList) : s = t := by
  cases s; cases t; simpa [String.toList] using congrArg String.mk h

theorem charListLe_cons_iff (a b : Char) (as bs : List Char) :
    charListLe (a :: as) (b :: bs) = true ↔
      (a.toNat < b.toNat ∨ (a.toNat = b.toNat ∧ charListLe as bs = true)) := by
  rcases Nat.lt_trichotomy a.toNat b.toNat with h | h | h
  · have h2 : ¬ b.toNat < a.toNat := by omega
    simp [charListLe, h, h2]
  · have h1 : ¬ a.toNat < b.toNat := by omega
    have h2 : ¬ b.toNat < a.toNat := by omega
    simp [charListLe, h1, h2, h]
  · have h1 : ¬ a.toNat < b.toNat := by omega
    have h3 : a.toNat ≠ b.toNat := by omega
    simp [charListLe, h1, h, h3]

theorem charListLe_total (x : List Char) : ∀ y, charListLe x y = true ∨ charListLe y x = true := by
  induction x with
  | nil => intro y; left; rfl
  | cons a as ih =>
    intro y
    cases y with
    | nil => right; rfl
    | cons b bs =>
      rw [charListLe_cons_iff, charListLe_cons_iff]
      rcases Nat.lt_trichotomy a.toNat b.toNat with h | h | h
      · left; exact Or.inl h
      · rcases ih bs with htail | htail
        · left; exact Or.inr ⟨h, htail⟩
        · right; exact Or.inr ⟨h.symm, htail⟩
      · right; exact Or.inl h

theorem charListLe_trans : ∀ {x y z : List Char},
    charListLe x y = true → charListLe y z = true → charListLe x z = true := by
  intro x
  induction x with
  | nil => intro y z _ _; rfl
  | cons a as ih =>
    intro y z h1 h2
    cases y with
    | nil => simp [charListLe] at h1
    | cons b bs =>
      cases z with
      | nil => simp [charListLe] at h2
      | cons c cs =>
        rw [charListLe_cons_iff] at h1 h2 ⊢
        rcases h1 with h1 | ⟨h1e, h1t⟩
        · rcases h2 with h2 | ⟨h2e, _⟩
          · exact Or.inl (Nat.lt_trans h1 h2)
          · exact Or.inl (h2e ▸ h1)
        · rcases h2 with h2 | ⟨h2e, h2t⟩
          · exact Or.inl (h1e ▸ h2)
          · exact Or.inr ⟨h1e.trans h2e, ih h1t h2t⟩

theorem charListLe_antisymm : ∀ {x y : List Char},
    charListLe x y = true → charListLe y x = true → x = y := by
  intro x
  induction x with
  | nil =>
    intro y _ h2
    cases y with
    | nil => rfl
    | cons b bs => simp [charListLe] at h2
  | cons a as ih =>
    intro y h1 h2
    cases y with
    | nil => simp [charListLe] at h1
    | cons b bs =>
      rw [charListLe_cons_iff] at h1 h2
      have he : a.toNat = b.toNat := by
        rcases h1 with h1 | ⟨h1e, _⟩ <;> rcases h2 with h2 | ⟨h2e, _⟩ <;> omega
      have ht : charListLe as bs = true := by
        rcases h1 with h1 | ⟨_, h1t⟩
        · omega
        · exact h1t
      have ht2 : charListLe bs as = true := by
        rcases h2 with h2 | ⟨_, h2t⟩
        · omega
        · exact h2t
      rw [charToNat_inj he, ih ht ht2]

theorem keyLe_total (a b : String) : keyLe a b = true ∨ keyLe b a = true :=
  charListLe_total a.toList b.toList

theorem keyLe_trans {a b c : String} (h1 : keyLe a b = true) (h2 : keyLe b c = true) :
    keyLe a c = true := charListLe_trans h1 h2

theorem keyLe_antisymm {a b : String} (h1 : keyLe a b = true) (h2 : keyLe b a = true) : a = b :=
  string_toList_inj (charListLe_antisymm h1 h2)

theorem insertSorted_perm (kv : String × PVal) (l : Params) :
    (insertSorted kv l).Perm (kv :: l) := by
  induction l with
  | nil => exact List.Perm.refl _
  | cons x xs ih =>
    by_cases h : keyLe kv.1 x.1
    · simp [insertSorted, h]
    · simp only [insertSorted, h, if_neg, Bool.false_eq_true, if_false]
      exact (ih.cons x).trans (List.Perm.swap kv x xs)

theorem sortParams_perm (p : Params) : (sortParams p).Perm p := by
  induction p with
  | nil => exact List.Perm.refl _
  | cons x xs ih =>
    exact (insertSorted_perm x (sortParams xs)).trans (ih.cons x)

theorem insertSorted_pairwise (kv : String × PVal) (l : Params)
    (h : l.Pairwise fun a b => keyLe a.1 b.1 = true) :
    (insertSorted kv l).Pairwise fun a b => keyLe a.1 b.1 = true := by
  induction l with
  | nil => simp [insertSorted]
  | cons x xs ih =>
    rcases List.pairwise_cons.mp h with ⟨hx, hxs⟩
    by_cases hc : keyLe kv.1 x.1
    · simp only [insertSorted, hc, if_true]
      refine List.pairwise_cons.mpr ⟨?_, h⟩
      intro b hb
      rcases List.mem_cons.mp hb with hbx | hb
      · exact hbx ▸ hc
      · exact keyLe_trans hc (hx b hb)
    · simp only [insertSorted, hc, Bool.false_eq_true, if_false]
      refine List.pairwise_cons.mpr ⟨?_, ih hxs⟩
      intro b hb
      rcases List.mem_cons.mp ((insertSorted_perm kv xs).mem_iff.mp hb) with hbk | hb
      · rw [hbk]
        rcases keyLe_total kv.1 x.1 with ht | ht
        · exact absurd ht hc
        · exact ht
      · exact hx b hb

theorem sortParams_pairwise (p : Params) :
    (sortParams p).Pairwise fun a b => keyLe a.1 b.1 = true := by
  induction p with
  | nil => simp [sortParams]
  | cons x xs ih => exact insertSorted_pairwise x (sortParams xs) ih

theorem sortParams_eq_of_perm {p1 p2 : Params} (hperm : p1.Perm p2)
    (hnd : (p1.map Prod.fst).Nodup) : sortParams p1 = sortParams p2 := by
  have hnd2 : (p2.map Prod.fst).Nodup := ((hperm.map Prod.fst).nodup_iff).mp hnd
  have key_nodup : ∀ {q : Params}, (q.map Prod.fst).Nodup →
      (sortParams q).Pairwise fun a b => a.1 ≠ b.1 := by
    intro q hq
    have : ((sortParams q).map Prod.fst).Nodup :=
      (((sortParams_perm q).map Prod.fst).nodup_iff).mpr hq
    exact List.pairwise_map.mp this
  have hs1 : (sortParams p1).Pairwise fun a b => keyLe a.1 b.1 = true ∧ a.1 ≠ b.1 :=
    (sortParams_pairwise p1).and (key_nodup hnd)
  have hs2 : (sortParams p2).Pairwise fun a b => keyLe a.1 b.1 = true ∧ a.1 ≠ b.1 :=
    (sortParams_pairwise p2).and (key_nodup hnd2)
  haveI : IsAntisymm (String × PVal) (fun a b => keyLe a.1 b.1 = true ∧ a.1 ≠ b.1) :=
    ⟨fun a b hab hba => absurd (keyLe_antisymm hab.1 hba.1) hab.2⟩
  exact List.eq_of_perm_of_sorted
    ((sortParams_perm p1).trans (hperm.trans (sortParams_perm p2).symm)) hs1 hs2

/-- C2: cache-key derivation is a pure function of the endpoint and the
parameter map: two parameter maps that are equal as maps (same bindings, any
insertion order, keys distinct as in every Python dict) yield the identical
key string for every endpoint; the derivation reads nothing but its two
arguments (no time, no call order). -/
theorem derive_key_insertion_order_invariant (endpoint : String) (p1 p2 : Params)
    (hperm : p1.Perm p2) (hnd : (p1.map Prod.fst).Nodup) :
    generate_cache_key endpoint p1 = generate_cache_key endpoint p2 := by
  unfold generate_cache_key jsonDumps
  rw [sortParams_eq_of_perm hperm hnd]

theorem derive_key_insertion_order_invariant_witness :
    ([("q", PVal.s "x"), ("max", PVal.n 50)] : Params).Perm
        [("max", PVal.n 50), ("q", PVal.s "x")] ∧
      (([("q", PVal.s "x"), ("max", PVal.n 50)] : Params).map Prod.fst).Nodup ∧
      generate_cache_key "search" [("q", PVal.s "x"), ("max", PVal.n 50)] =
        generate_cache_key "search" [("max", PVal.n 50), ("q", PVal.s "x")] :=
  ⟨by decide, by decide,
    derive_key_insertion_order_invariant "search" _ _ (by decide) (by decide)⟩

/-! ## C3: failures propagate and leave the cache and counters untouched -/

/-- C3: for every upstream failure — non-2xx status, network/timeout error, or
any other exception during the call — `_make_request` raises to its caller and
leaves the whole service state (cache contents, hit counter, miss counter)
exactly as it was: a failed call is never cached and never counted. -/
theorem failed_call_propagates_and_preserves_state
    (u : Upstream) (api_key : String) (ttl maxsize now : Nat) (endpoint : String)
    (params : Params) (st : ServiceState) (status : Nat) (body : ErrBody) (m1 m2 : String)
    (hmiss : cacheGet ttl now (generate_cache_key endpoint params) st.cache = none)
    (hfail : u endpoint (pySet params "apikey" (.s api_key)) = .httpError status body ∨
             u endpoint (pySet params "apikey" (.s api_key)) = .networkError m1 ∨
             u endpoint (pySet params "apikey" (.s api_key)) = .otherError m2) :
    isError (make_request u api_key ttl maxsize now endpoint params st).res = true ∧
      (make_request u api_key ttl maxsize now endpoint params st).state = st := by
  rcases hfail with h | h | h <;>
    simp [make_request, hmiss, h, isError]

theorem failed_call_propagates_and_preserves_state_witness :
    cacheGet 600 0 (generate_cache_key "search" [("q", PVal.s "x")]) [] = none ∧
    isError (make_request (fun _ _ => Outcome.networkError "down") "KEY" 600 1000 0
      "search" [("q", PVal.s "x")] ⟨[], 0, 0⟩).res = true ∧
    (make_request (fun _ _ => Outcome.networkError "down") "KEY" 600 1000 0
      "search" [("q", PVal.s "x")] ⟨[], 0, 0⟩).state = ⟨[], 0, 0⟩ :=
  ⟨rfl,
    (failed_call_propagates_and_preserves_state (fun _ _ => Outcome.networkError "down")
      "KEY" 600 1000 0 "search" [("q", PVal.s "x")] ⟨[], 0, 0⟩ 0 ErrBody.invalidJson
      "down" "" rfl (Or.inr (Or.inl rfl))).1,
    (failed_call_propagates_and_preserves_state (fun _ _ => Outcome.networkError "down")
      "KEY" 600 1000 0 "search" [("q", PVal.s "x")] ⟨[], 0, 0⟩ 0 ErrBody.invalidJson
      "down" "" rfl (Or.inr (Or.inl rfl))).2⟩

/-! ## C4: the non-2xx error message -/

/-- C4 counterexample: with HTTP status 429 and an error body that is not valid
JSON, the raised message is exactly "GNews API Error: 429" — the claimed
"Unknown error" default does not appear anywhere in it, because the
`except: pass` around `e.response.json()` skips the detail entirely. -/
theorem unparseable_error_body_counterexample :
    (make_request (fun _ _ => Outcome.httpError 429 ErrBody.invalidJson) "KEY" 600 1000 0
        "search" [("q", PVal.s "news")] ⟨[], 0, 0⟩).res =
      .error (.exc "GNews API Error: 429") ∧
    pyIn "Unknown error" "GNews API Error: 429" = false := by
  constructor
  · decide
  · decide

/-- C4 (amended): a non-2xx upstream response raises an error carrying the
status code; the upstream-provided message is appended when the error body is
valid JSON with a `message` field; a valid-JSON body without the field yields
the "Unknown error" default; a body that is not valid JSON appends no detail,
leaving only the status-code prefix. -/
theorem http_error_message_amended
    (u : Upstream) (api_key : String) (ttl maxsize now : Nat) (endpoint : String)
    (params : Params) (st : ServiceState) (status : Nat) (body : ErrBody)
    (hmiss : cacheGet ttl now (generate_cache_key endpoint params) st.cache = none)
    (hout : u endpoint (pySet params "apikey" (.s api_key)) = .httpError status body) :
    (make_request u api_key ttl maxsize now endpoint params st).res =
      .error (.exc (match body with
        | .validJson (some m) => "GNews API Error: " ++ toString status ++ " - " ++ m
        | .validJson none => "GNews API Error: " ++ toString status ++ " - Unknown error"
        | .invalidJson => "GNews API Error: " ++ toString status)) := by
  rcases body with m | _
  · rcases m with _ | m <;>
      simp [make_request, hmiss, hout, httpErrorMsg, String.append_assoc]
  · simp [make_request, hmiss, hout, httpErrorMsg]

theorem http_error_message_amended_witness :
    cacheGet 600 0 (generate_cache_key "search" [("q", PVal.s "news")]) [] = none ∧
    (make_request (fun _ _ => Outcome.httpError 429 (ErrBody.validJson (some "rate limited")))
        "KEY" 600 1000 0 "search" [("q", PVal.s "news")] ⟨[], 0, 0⟩).res =
      .error (.exc "GNews API Error: 429 - rate limited") :=
  ⟨rfl,
    (http_error_message_amended
        (fun _ _ => Outcome.httpError 429 (ErrBody.validJson (some "rate limited")))
        "KEY" 600 1000 0 "search" [("q", PVal.s "news")] ⟨[], 0, 0⟩ 429
        (ErrBody.validJson (some "rate limited")) rfl rfl)⟩

/-! ## C1: idempotence of the cached-call primitive within the TTL window -/

theorem cacheGet_append_last (ttl now2 : Nat) (k : String) (v : NewsData) (t : Nat)
    (pre : Cache) (hpre : ∀ e ∈ pre, e.key ≠ k) (hlive : now2 < t + ttl) :
    cacheGet ttl now2 k (pre ++ [⟨k, t, v⟩]) = some v := by
  unfold cacheGet
  rw [List.find?_append]
  have h1 : pre.find? (fun e => e.key == k) = none :=
    List.find?_eq_none.mpr (by intro e he; simpa using hpre e he)
  rw [h1]
  simp [entryLive, hlive]

theorem cacheSet_kept_keys {maxsize ttl now : Nat} {k : String} {v : NewsData} {c : Cache} :
    ∀ e ∈ cacheSet maxsize ttl now k v c, e ∈ [(⟨k, now, v⟩ : Entry)] ∨ e.key ≠ k := by
  intro e he
  unfold cacheSet at he
  rcases List.mem_append.mp he with he | he
  · right
    have hf : e ∈ (cacheExpire ttl now c).filter (fun e => e.key != k) := by
      by_cases hlen : ((cacheExpire ttl now c).filter (fun e => e.key != k)).length ≥ maxsize
      · simp only [hlen, if_true] at he
        exact List.mem_of_mem_drop he
      · simpa only [hlen, if_false] using he
    simpa using (List.mem_filter.mp hf).2
  · left; exact he

theorem cacheGet_cacheSet_same {maxsize ttl now now2 : Nat} {k : String} {v : NewsData}
    {c : Cache} (hlive : now2 < now + ttl) :
    cacheGet ttl now2 k (cacheSet maxsize ttl now k v c) = some v := by
  unfold cacheSet
  apply cacheGet_append_last
  · intro e he
    have hf : e ∈ (cacheExpire ttl now c).filter (fun e => e.key != k) := by
      by_cases hlen : ((cacheExpire ttl now c).filter (fun e => e.key != k)).length ≥ maxsize
      · simp only [hlen, if_true] at he
        exact List.mem_of_mem_drop he
      · simpa only [hlen, if_false] using he
    simpa using (List.mem_filter.mp hf).2
  · exact hlive

/-- C1: calling the same logical operation (same endpoint and parameters) twice
within the TTL window issues exactly one upstream call. The first call misses:
it returns the upstream document annotated `from_cache = false`, stores the raw
document, and bumps only the miss counter. The second call does not touch the
upstream: it returns the same stored document annotated `from_cache = true`,
bumps only the hit counter, and leaves the cache as it was. -/
theorem cached_call_idempotent
    (u : Upstream) (api_key : String) (ttl maxsize now1 now2 : Nat) (endpoint : String)
    (params : Params) (st : ServiceState) (data : NewsData)
    (hmiss : cacheGet ttl now1 (generate_cache_key endpoint params) st.cache = none)
    (hok : u endpoint (pySet params "apikey" (.s api_key)) = .ok data)
    (hwindow : now2 < now1 + ttl) :
    (make_request u api_key ttl maxsize now1 endpoint params st).res = .ok ⟨data, false⟩ ∧
    (make_request u api_key ttl maxsize now1 endpoint params st).upstreamCalled = true ∧
    (make_request u api_key ttl maxsize now1 endpoint params st).state.cache_misses
      = st.cache_misses + 1 ∧
    (make_request u api_key ttl maxsize now1 endpoint params st).state.cache_hits
      = st.cache_hits ∧
    cacheGet ttl now2 (generate_cache_key endpoint params)
      (make_request u api_key ttl maxsize now1 endpoint params st).state.cache = some data ∧
    (make_request u api_key ttl maxsize now2 endpoint params
        (make_request u api_key ttl maxsize now1 endpoint params st).state).res
      = .ok ⟨data, true⟩ ∧
    (make_request u api_key ttl maxsize now2 endpoint params
        (make_request u api_key ttl maxsize now1 endpoint params st).state).upstreamCalled
      = false ∧
    (make_request u api_key ttl maxsize now2 endpoint params
        (make_request u api_key ttl maxsize now1 endpoint params st).state).state.cache_hits
      = (make_request u api_key ttl maxsize now1 endpoint params st).state.cache_hits + 1 ∧
    (make_request u api_key ttl maxsize now2 endpoint params
        (make_request u api_key ttl maxsize now1 endpoint params st).state).state.cache_misses
      = (make_request u api_key ttl maxsize now1 endpoint params st).state.cache_misses ∧
    (make_request u api_key ttl maxsize now2 endpoint params
        (make_request u api_key ttl maxsize now1 endpoint params st).state).state.cache
      = (make_request u api_key ttl maxsize now1 endpoint params st).state.cache := by
  have hfirst : make_request u api_key ttl maxsize now1 endpoint params st =
      { res := .ok ⟨data, false⟩,
        state := { cache := cacheSet maxsize ttl now1 (generate_cache_key endpoint params)
                      data st.cache,
                   cache_hits := st.cache_hits, cache_misses := st.cache_misses + 1 },
        upstreamCalled := true } := by
    simp [make_request, hmiss, hok]
  have hhit : cacheGet ttl now2 (generate_cache_key endpoint params)
      (cacheSet maxsize ttl now1 (generate_cache_key endpoint params) data st.cache)
        = some data := cacheGet_cacheSet_same hwindow
  rw [hfirst]
  refine ⟨rfl, rfl, rfl, rfl, hhit, ?_, ?_, ?_, ?_, ?_⟩ <;>
    simp [make_request, hhit]

theorem cached_call_idempotent_witness :
    cacheGet 600 0 (generate_cache_key "search" [("q", PVal.s "news")]) [] = none ∧
    (300 : Nat) < 0 + 600 ∧
    (make_request (fun _ _ => Outcome.ok ⟨3, none⟩) "KEY" 600 1000 0 "search"
        [("q", PVal.s "news")] ⟨[], 0, 0⟩).res = .ok ⟨⟨3, none⟩, false⟩ ∧
    (make_request (fun _ _ => Outcome.ok ⟨3, none⟩) "KEY" 600 1000 0 "search"
        [("q", PVal.s "news")] ⟨[], 0, 0⟩).upstreamCalled = true ∧
    (make_request (fun _ _ => Outcome.ok ⟨3, none⟩) "KEY" 600 1000 0 "search"
        [("q", PVal.s "news")] ⟨[], 0, 0⟩).state.cache_misses = 0 + 1 ∧
    (make_request (fun _ _ => Outcome.ok ⟨3, none⟩) "KEY" 600 1000 0 "search"
        [("q", PVal.s "news")] ⟨[], 0, 0⟩).state.cache_hits = 0 ∧
    (make_request (fun _ _ => Outcome.ok ⟨3, none⟩) "KEY" 600 1000 300 "search"
        [("q", PVal.s "news")]
        (make_request (fun _ _ => Outcome.ok ⟨3, none⟩) "KEY" 600 1000 0 "search"
          [("q", PVal.s "news")] ⟨[], 0, 0⟩).state).res = .ok ⟨⟨3, none⟩, true⟩ ∧
    (make_request (fun _ _ => Outcome.ok ⟨3, none⟩) "KEY" 600 1000 300 "search"
        [("q", PVal.s "news")]
        (make_request (fun _ _ => Outcome.ok ⟨3, none⟩) "KEY" 600 1000 0 "search"
          [("q", PVal.s "news")] ⟨[], 0, 0⟩).state).upstreamCalled = false ∧
    (make_request (fun _ _ => Outcome.ok ⟨3, none⟩) "KEY" 600 1000 300 "search"
        [("q", PVal.s "news")]
        (make_request (fun _ _ => Outcome.ok ⟨3, none⟩) "KEY" 600 1000 0 "search"
          [("q", PVal.s "news")] ⟨[], 0, 0⟩).state).state.cache_hits =
      (make_request (fun _ _ => Outcome.ok ⟨3, none⟩) "KEY" 600 1000 0 "search"
        [("q", PVal.s "news")] ⟨[], 0, 0⟩).state.cache_hits + 1 ∧
    (make_request (fun _ _ => Outcome.ok ⟨3, none⟩) "KEY" 600 1000 300 "search"
        [("q", PVal.s "news")]
        (make_request (fun _ _ => Outcome.ok ⟨3, none⟩) "KEY" 600 1000 0 "search"
          [("q", PVal.s "news")] ⟨[], 0, 0⟩).state).state.cache_misses =
      (make_request (fun _ _ => Outcome.ok ⟨3, none⟩) "KEY" 600 1000 0 "search"
        [("q", PVal.s "news")] ⟨[], 0, 0⟩).state.cache_misses := by
  have h := cached_call_idempotent (fun _ _ => Outcome.ok ⟨3, none⟩) "KEY" 600 1000 0 300
    "search" [("q", PVal.s "news")] ⟨[], 0, 0⟩ ⟨3, none⟩ rfl rfl (by decide)
  exact ⟨rfl, by decide, h.1, h.2.1, h.2.2.1, h.2.2.2.1, h.2.2.2.2.2.1,
    h.2.2.2.2.2.2.1, h.2.2.2.2.2.2.2.1, h.2.2.2.2.2.2.2.2.1⟩

/-! ## C9: the credential never reaches cache-key derivation -/

theorem stripKey_pySet (p : Params) (k : String) (v : PVal) :
    stripKey k (pySet p k v) = stripKey k p := by
  have hmap : ∀ q : Params,
      List.filter (fun kv => kv.1 != k) (q.map (fun kv => if kv.1 == k then (k, v) else kv)) =
        List.filter (fun kv => kv.1 != k) q := by
    intro q
    induction q with
    | nil => rfl
    | cons x xs ih =>
      by_cases hx : x.1 = k
      · simp [List.filter_cons, hx]
        simpa using ih
      · simp [List.filter_cons, hx]
        simpa using ih
  unfold pySet stripKey
  by_cases h : p.any (fun kv => kv.1 == k)
  · simp only [h, if_true]
    exact hmap p
  · simp only [h, if_false]
    simp [List.filter_append]

/-- C9: the upstream credential never participates in cache-key derivation.
For any two credential values, as long as the upstream outcome does not depend
on the `apikey` entry of the outgoing parameters, the two runs of
`_make_request` are observably identical (same result, same state — in
particular the same derived cache key and stored entry); and the credential is
appended to the outgoing parameters only at the network boundary: removing the
`apikey` entry again yields exactly the caller's parameter map, the one the
cache key is derived from. -/
theorem make_request_credential_independent
    (u : Upstream) (k1 k2 api_key : String) (ttl maxsize now : Nat) (endpoint : String)
    (params : Params) (st : ServiceState)
    (hu : ∀ e p1 p2, stripKey "apikey" p1 = stripKey "apikey" p2 → u e p1 = u e p2) :
    make_request u k1 ttl maxsize now endpoint params st =
      make_request u k2 ttl maxsize now endpoint params st ∧
    stripKey "apikey" (pySet params "apikey" (.s api_key)) = stripKey "apikey" params := by
  refine ⟨?_, stripKey_pySet params "apikey" (.s api_key)⟩
  have hu2 : u endpoint (pySet params "apikey" (.s k1))
      = u endpoint (pySet params "apikey" (.s k2)) :=
    hu endpoint _ _ (by rw [stripKey_pySet, stripKey_pySet])
  simp only [make_request]
  rw [hu2]

theorem make_request_credential_independent_witness :
    make_request (fun _ _ => Outcome.ok ⟨7, none⟩) "KEY-A" 600 1000 0 "search"
        [("q", PVal.s "news")] ⟨[], 0, 0⟩ =
      make_request (fun _ _ => Outcome.ok ⟨7, none⟩) "KEY-B" 600 1000 0 "search"
        [("q", PVal.s "news")] ⟨[], 0, 0⟩ ∧
    stripKey "apikey" (pySet [("q", PVal.s "news")] "apikey" (PVal.s "KEY-A")) =
      stripKey "apikey" [("q", PVal.s "news")] :=
  make_request_credential_independent (fun _ _ => Outcome.ok ⟨7, none⟩) "KEY-A" "KEY-B"
    "KEY-A" 600 1000 0 "search" [("q", PVal.s "news")] ⟨[], 0, 0⟩
    (fun _ _ _ _ => rfl)

/-! ## C7: capacity bound and oldest-first eviction -/

theorem cacheSet_length_le {maxsize ttl now : Nat} {k : String} {v : NewsData} {c : Cache}
    (h1 : 1 ≤ maxsize) : (cacheSet maxsize ttl now k v c).length ≤ maxsize := by
  simp only [cacheSet]
  by_cases h : ((cacheExpire ttl now c).filter (fun e => e.key != k)).length ≥ maxsize
  · rw [if_pos h]
    simp only [List.length_append, List.length_drop, List.length_cons, List.length_nil]
    omega
  · rw [if_neg h]
    simp only [List.length_append, List.length_cons, List.length_nil]
    omega

theorem cacheSize_foldl_le (maxsize ttl now : Nat) (h1 : 1 ≤ maxsize) :
    ∀ (ins : List (String × NewsData)) (c : Cache), c.length ≤ maxsize →
      cacheSize ttl now (ins.foldl (fun acc kv => cacheSet maxsize ttl now kv.1 kv.2 acc) c)
        ≤ maxsize := by
  intro ins
  induction ins with
  | nil =>
    intro c hc
    exact le_trans (List.length_filter_le _ _) hc
  | cons kv rest ih =>
    intro c hc
    simp only [List.foldl_cons]
    exact ih _ (cacheSet_length_le h1)

/-- C7: for every sequence of insertions into an (initially empty) cache with a
configured maximum of at least one entry, the reported size never exceeds the
maximum; and whenever an insertion of a fresh key finds the live entries
already at capacity, exactly the head of the insertion-ordered live list — the
oldest-inserted surviving entry — is evicted, deterministically, and the new
entry is appended at the end. -/
theorem cache_capacity_bound_and_eviction (maxsize ttl now : Nat) (h1 : 1 ≤ maxsize) :
    (∀ ins : List (String × NewsData),
        cacheSize ttl now
          (ins.foldl (fun acc kv => cacheSet maxsize ttl now kv.1 kv.2 acc) []) ≤ maxsize) ∧
    (∀ (c : Cache) (k : String) (v : NewsData),
        ((cacheExpire ttl now c).filter (fun e => e.key != k)).length = maxsize →
        cacheSet maxsize ttl now k v c =
          ((cacheExpire ttl now c).filter (fun e => e.key != k)).tail ++ [⟨k, now, v⟩]) := by
  constructor
  · intro ins
    exact cacheSize_foldl_le maxsize ttl now h1 ins [] (by simp)
  · intro c k v hlen
    simp only [cacheSet]
    rw [if_pos (le_of_eq hlen.symm)]
    congr 1
    rw [hlen]
    have h2 : maxsize + 1 - maxsize = 1 := by omega
    rw [h2, List.drop_one]

theorem cache_capacity_bound_and_eviction_witness :
    (1 : Nat) ≤ 2 ∧
    cacheSize 10 0
      ([("a", (⟨1, none⟩ : NewsData)), ("b", ⟨2, none⟩), ("c", ⟨3, none⟩)].foldl
        (fun acc kv => cacheSet 2 10 0 kv.1 kv.2 acc) []) ≤ 2 ∧
    ((cacheExpire 10 0 [(⟨"a", 0, ⟨1, none⟩⟩ : Entry), ⟨"b", 0, ⟨2, none⟩⟩]).filter
        (fun e => e.key != "c")).length = 2 ∧
    cacheSet 2 10 0 "c" ⟨3, none⟩ [(⟨"a", 0, ⟨1, none⟩⟩ : Entry), ⟨"b", 0, ⟨2, none⟩⟩] =
      ((cacheExpire 10 0 [(⟨"a", 0, ⟨1, none⟩⟩ : Entry), ⟨"b", 0, ⟨2, none⟩⟩]).filter
        (fun e => e.key != "c")).tail ++ [⟨"c", 0, ⟨3, none⟩⟩] :=
  ⟨by decide,
    (cache_capacity_bound_and_eviction 2 10 0 (by decide)).1
      [("a", ⟨1, none⟩), ("b", ⟨2, none⟩), ("c", ⟨3, none⟩)],
    by decide,
    (cache_capacity_bound_and_eviction 2 10 0 (by decide)).2
      [⟨"a", 0, ⟨1, none⟩⟩, ⟨"b", 0, ⟨2, none⟩⟩] "c" ⟨3, none⟩ (by decide)⟩

/-! ## C6: the title post-filter -/

theorem titleFilter_ok (title : String) (exact : Bool) (arts : List Article)
    (h : arts.all (fun a => a.title.isSome) = true) :
    titleFilter (pyLower title) exact arts = .ok (arts.filter (titleMatches title exact)) := by
  induction arts with
  | nil => rfl
  | cons a rest ih =>
    rw [List.all_cons, Bool.and_eq_true] at h
    obtain ⟨ha, hrest⟩ := h
    cases hat : a.title with
    | none => rw [hat] at ha; simp at ha
    | some t =>
      simp only [titleFilter, hat]
      rw [ih hrest]
      simp [List.filter_cons, titleMatches, hat]

/-- C6: `find_by_title` searches with up to 50 results — wrapping the title in
quotes in the query exactly when `exact` is true — and returns precisely the
fetched articles whose title case-insensitively equals the given title
(`exact = true`) or contains it as a substring (`exact = false`), with
`totalArticles` recomputed to the filtered count and the broad result left to
the cache layer. Stated for fetched results whose articles all carry a title
(see the companion safety claim for the missing-title case). -/
theorem find_by_title_filters
    (u : Upstream) (api_key : String) (ttl maxsize now : Nat) (title : String) (exact : Bool)
    (st : ServiceState) (data : NewsData) (arts : List Article)
    (hmiss : cacheGet ttl now (generate_cache_key "search"
        (searchParams (if exact then "\"" ++ title ++ "\"" else title) 50 "en" "us" "relevance"))
        st.cache = none)
    (hok : u "search" (pySet (searchParams (if exact then "\"" ++ title ++ "\"" else title)
        50 "en" "us" "relevance") "apikey" (.s api_key)) = .ok data)
    (hdata : data.articles = some arts)
    (htitles : arts.all (fun a => a.title.isSome) = true) :
    (find_by_title u api_key ttl maxsize now title exact st).res =
      .ok ⟨{ data with
             articles := some (arts.filter (titleMatches title exact)),
             totalArticles := Int.ofNat (arts.filter (titleMatches title exact)).length },
           false⟩ := by
  have hreq : make_request u api_key ttl maxsize now "search"
      (searchParams (if exact then "\"" ++ title ++ "\"" else title) 50 "en" "us" "relevance") st
      = { res := .ok ⟨data, false⟩,
          state := { cache := cacheSet maxsize ttl now
                        (generate_cache_key "search" (searchParams
                          (if exact then "\"" ++ title ++ "\"" else title) 50 "en" "us"
                          "relevance")) data st.cache,
                     cache_hits := st.cache_hits, cache_misses := st.cache_misses + 1 },
          upstreamCalled := true } := by
    simp [make_request, hmiss, hok]
  simp only [find_by_title, search_articles, hreq, hdata, titleFilter_ok title exact arts htitles]

theorem find_by_title_filters_witness :
    ([(⟨some "Election Night Results", some ⟨some "Reuters", none⟩, "a1"⟩ : Article),
      ⟨some "Weather Update", some ⟨some "CNN", none⟩, "a2"⟩].all
        (fun a => a.title.isSome) = true) ∧
    (find_by_title
        (fun _ _ => Outcome.ok ⟨2, some
          [⟨some "Election Night Results", some ⟨some "Reuters", none⟩, "a1"⟩,
           ⟨some "Weather Update", some ⟨some "CNN", none⟩, "a2"⟩]⟩)
        "KEY" 600 1000 0 "Election" false ⟨[], 0, 0⟩).res =
      .ok ⟨⟨1, some [⟨some "Election Night Results", some ⟨some "Reuters", none⟩, "a1"⟩]⟩,
        false⟩ := by
  constructor
  · decide
  · exact find_by_title_filters
      (fun _ _ => Outcome.ok ⟨2, some
        [⟨some "Election Night Results", some ⟨some "Reuters", none⟩, "a1"⟩,
         ⟨some "Weather Update", some ⟨some "CNN", none⟩, "a2"⟩]⟩)
      "KEY" 600 1000 0 "Election" false ⟨[], 0, 0⟩
      ⟨2, some [⟨some "Election Night Results", some ⟨some "Reuters", none⟩, "a1"⟩,
                ⟨some "Weather Update", some ⟨some "CNN", none⟩, "a2"⟩]⟩
      [⟨some "Election Night Results", some ⟨some "Reuters", none⟩, "a1"⟩,
       ⟨some "Weather Update", some ⟨some "CNN", none⟩, "a2"⟩]
      rfl rfl rfl (by decide)

/-! ## C5: the author post-filter with truncation -/

theorem authorLoop_eq_take_filter (al : String) (count : Nat) :
    ∀ (l : List Article) (acc : List Article), acc.length < count →
      authorLoop al count acc l = (acc ++ l.filter (authorMatch al)).take count := by
  intro l
  induction l with
  | nil =>
    intro acc hacc
    simp only [authorLoop, List.filter_nil, List.append_nil]
    exact (List.take_of_length_le (Nat.le_of_lt hacc)).symm
  | cons a rest ih =>
    intro acc hacc
    cases hm : authorMatch al a with
    | true =>
      by_cases hlen : (acc ++ [a]).length ≥ count
      · have hlen' : (acc ++ [a]).length = count := by
          simp only [List.length_append, List.length_cons, List.length_nil] at hlen ⊢
          omega
        simp only [authorLoop, hm, if_true, hlen, if_pos, List.filter_cons, hm]
        rw [show acc ++ a :: List.filter (authorMatch al) rest
            = (acc ++ [a]) ++ List.filter (authorMatch al) rest by simp]
        rw [← hlen', List.take_left]
      · have hlt : (acc ++ [a]).length < count := by omega
        simp only [authorLoop, hm, if_true, hlen, if_neg, List.filter_cons]
        rw [ih _ hlt]
        simp
    | false =>
      simp only [authorLoop, hm, List.filter_cons]
      rw [ih _ hacc]
      simp [hm]

/-- C5: `find_by_author` searches with up to 100 results using the author
string as the query, keeps exactly the articles whose source name
case-insensitively contains the author string (articles with no source, no
source name or an empty source name are excluded), truncates to the first
`count` matches in their original relative order, and recomputes
`totalArticles` to the number of returned articles. Stated for the spec's
count range `1–100` (the route validates `count ≥ 1`). -/
theorem find_by_author_filters_and_truncates
    (u : Upstream) (api_key : String) (ttl maxsize now : Nat) (author : String) (count : Nat)
    (st : ServiceState) (data : NewsData) (arts : List Article)
    (hcount : 1 ≤ count)
    (hmiss : cacheGet ttl now (generate_cache_key "search"
        (searchParams author 100 "en" "us" "relevance")) st.cache = none)
    (hok : u "search" (pySet (searchParams author 100 "en" "us" "relevance")
        "apikey" (.s api_key)) = .ok data)
    (hdata : data.articles = some arts) :
    (find_by_author u api_key ttl maxsize now author count st).res =
      .ok ⟨{ data with
             articles := some ((arts.filter (authorMatch (pyLower author))).take count),
             totalArticles :=
               Int.ofNat ((arts.filter (authorMatch (pyLower author))).take count).length },
           false⟩ := by
  have hreq : make_request u api_key ttl maxsize now "search"
      (searchParams author 100 "en" "us" "relevance") st
      = { res := .ok ⟨data, false⟩,
          state := { cache := cacheSet maxsize ttl now
                        (generate_cache_key "search"
                          (searchParams author 100 "en" "us" "relevance")) data st.cache,
                     cache_hits := st.cache_hits, cache_misses := st.cache_misses + 1 },
          upstreamCalled := true } := by
    simp [make_request, hmiss, hok]
  have hloop : authorLoop (pyLower author) count [] arts
      = (arts.filter (authorMatch (pyLower author))).take count := by
    have := authorLoop_eq_take_filter (pyLower author) count arts []
      (by simpa using hcount)
    simpa using this
  simp only [find_by_author, search_articles, hreq, hdata, hloop]

theorem find_by_author_filters_and_truncates_witness :
    (1 : Nat) ≤ 2 ∧
    (find_by_author
        (fun _ _ => Outcome.ok ⟨7, some
          [⟨some "T1", some ⟨some "Reuters", none⟩, "m1"⟩,
           ⟨some "T2", some ⟨some "CNN", none⟩, "n1"⟩,
           ⟨some "T3", some ⟨some "Reuters Institute", none⟩, "m2"⟩,
           ⟨some "T4", some ⟨some "reuters", none⟩, "m3"⟩,
           ⟨some "T5", some ⟨some "BBC", none⟩, "n2"⟩,
           ⟨some "T6", some ⟨some "Reuters", none⟩, "m4"⟩,
           ⟨some "T7", some ⟨some "Thomson Reuters", none⟩, "m5"⟩]⟩)
        "KEY" 600 1000 0 "Reuters" 2 ⟨[], 0, 0⟩).res =
      .ok ⟨⟨2, some [⟨some "T1", some ⟨some "Reuters", none⟩, "m1"⟩,
                     ⟨some "T3", some ⟨some "Reuters Institute", none⟩, "m2"⟩]⟩, false⟩ := by
  constructor
  · decide
  · exact find_by_author_filters_and_truncates
      (fun _ _ => Outcome.ok ⟨7, some
        [⟨some "T1", some ⟨some "Reuters", none⟩, "m1"⟩,
         ⟨some "T2", some ⟨some "CNN", none⟩, "n1"⟩,
         ⟨some "T3", some ⟨some "Reuters Institute", none⟩, "m2"⟩,
         ⟨some "T4", some ⟨some "reuters", none⟩, "m3"⟩,
         ⟨some "T5", some ⟨some "BBC", none⟩, "n2"⟩,
         ⟨some "T6", some ⟨some "Reuters", none⟩, "m4"⟩,
         ⟨some "T7", some ⟨some "Thomson Reuters", none⟩, "m5"⟩]⟩)
      "KEY" 600 1000 0 "Reuters" 2 ⟨[], 0, 0⟩
      ⟨7, some
        [⟨some "T1", some ⟨some "Reuters", none⟩, "m1"⟩,
         ⟨some "T2", some ⟨some "CNN", none⟩, "n1"⟩,
         ⟨some "T3", some ⟨some "Reuters Institute", none⟩, "m2"⟩,
         ⟨some "T4", some ⟨some "reuters", none⟩, "m3"⟩,
         ⟨some "T5", some ⟨some "BBC", none⟩, "n2"⟩,
         ⟨some "T6", some ⟨some "Reuters", none⟩, "m4"⟩,
         ⟨some "T7", some ⟨some "Thomson Reuters", none⟩, "m5"⟩]⟩
      [⟨some "T1", some ⟨some "Reuters", none⟩, "m1"⟩,
       ⟨some "T2", some ⟨some "CNN", none⟩, "n1"⟩,
       ⟨some "T3", some ⟨some "Reuters Institute", none⟩, "m2"⟩,
       ⟨some "T4", some ⟨some "reuters", none⟩, "m3"⟩,
       ⟨some "T5", some ⟨some "BBC", none⟩, "n2"⟩,
       ⟨some "T6", some ⟨some "Reuters", none⟩, "m4"⟩,
       ⟨some "T7", some ⟨some "Thomson Reuters", none⟩, "m5"⟩]
      (by decide) rfl rfl rfl

/-! ## C8: filtering happens after the cache step; the cache keeps the raw result -/

/-- C8: the cache stores the raw upstream search document — by construction it
carries no `from_cache` flag (the flag is attached per call to a copy), and the
local post-filtering of both `find_by_title` and `find_by_author` rewrites only
the returned copy. After either filtered call, the entry under its search key
is still the unfiltered broad document; a repeated identical filtered query
within the TTL window hits the cache (no upstream call, hit counter bumped)
and returns the same filtered articles, now flagged `from_cache = true`. -/
theorem filtering_after_cache_and_raw_stored
    (u : Upstream) (api_key : String) (ttl maxsize now1 now2 : Nat) (title : String)
    (exact : Bool) (st : ServiceState) (data : NewsData) (arts : List Article)
    (author : String) (count : Nat) (st2 : ServiceState) (data2 : NewsData)
    (arts2 : List Article)
    (hmiss : cacheGet ttl now1 (generate_cache_key "search"
        (searchParams (if exact then "\"" ++ title ++ "\"" else title) 50 "en" "us" "relevance"))
        st.cache = none)
    (hok : u "search" (pySet (searchParams (if exact then "\"" ++ title ++ "\"" else title)
        50 "en" "us" "relevance") "apikey" (.s api_key)) = .ok data)
    (hdata : data.articles = some arts)
    (htitles : arts.all (fun a => a.title.isSome) = true)
    (hcount2 : 1 ≤ count)
    (hmiss2 : cacheGet ttl now1 (generate_cache_key "search"
        (searchParams author 100 "en" "us" "relevance")) st2.cache = none)
    (hok2 : u "search" (pySet (searchParams author 100 "en" "us" "relevance")
        "apikey" (.s api_key)) = .ok data2)
    (hdata2 : data2.articles = some arts2)
    (hwindow : now2 < now1 + ttl) :
    cacheGet ttl now2 (generate_cache_key "search"
        (searchParams (if exact then "\"" ++ title ++ "\"" else title) 50 "en" "us" "relevance"))
      (find_by_title u api_key ttl maxsize now1 title exact st).state.cache = some data ∧
    (find_by_title u api_key ttl maxsize now2 title exact
        (find_by_title u api_key ttl maxsize now1 title exact st).state).upstreamCalled
      = false ∧
    (find_by_title u api_key ttl maxsize now2 title exact
        (find_by_title u api_key ttl maxsize now1 title exact st).state).state.cache_hits
      = (find_by_title u api_key ttl maxsize now1 title exact st).state.cache_hits + 1 ∧
    (find_by_title u api_key ttl maxsize now1 title exact st).res
      = .ok ⟨{ data with
               articles := some (arts.filter (titleMatches title exact)),
               totalArticles := Int.ofNat (arts.filter (titleMatches title exact)).length },
             false⟩ ∧
    (find_by_title u api_key ttl maxsize now2 title exact
        (find_by_title u api_key ttl maxsize now1 title exact st).state).res
      = .ok ⟨{ data with
               articles := some (arts.filter (titleMatches title exact)),
               totalArticles := Int.ofNat (arts.filter (titleMatches title exact)).length },
             true⟩ ∧
    cacheGet ttl now2 (generate_cache_key "search"
        (searchParams author 100 "en" "us" "relevance"))
      (find_by_author u api_key ttl maxsize now1 author count st2).state.cache = some data2 ∧
    (find_by_author u api_key ttl maxsize now2 author count
        (find_by_author u api_key ttl maxsize now1 author count st2).state).upstreamCalled
      = false ∧
    (find_by_author u api_key ttl maxsize now2 author count
        (find_by_author u api_key ttl maxsize now1 author count st2).state).state.cache_hits
      = (find_by_author u api_key ttl maxsize now1 author count st2).state.cache_hits + 1 ∧
    (find_by_author u api_key ttl maxsize now1 author count st2).res
      = .ok ⟨{ data2 with
               articles := some ((arts2.filter (authorMatch (pyLower author))).take count),
               totalArticles :=
                 Int.ofNat ((arts2.filter (authorMatch (pyLower author))).take count).length },
             false⟩ ∧
    (find_by_author u api_key ttl maxsize now2 author count
        (find_by_author u api_key ttl maxsize now1 author count st2).state).res
      = .ok ⟨{ data2 with
               articles := some ((arts2.filter (authorMatch (pyLower author))).take count),
               totalArticles :=
                 Int.ofNat ((arts2.filter (authorMatch (pyLower author))).take count).length },
             true⟩ := by
  have hreq1 : make_request u api_key ttl maxsize now1 "search"
      (searchParams (if exact then "\"" ++ title ++ "\"" else title) 50 "en" "us" "relevance") st
      = { res := .ok ⟨data, false⟩,
          state := { cache := cacheSet maxsize ttl now1
                        (generate_cache_key "search" (searchParams
                          (if exact then "\"" ++ title ++ "\"" else title) 50 "en" "us"
                          "relevance")) data st.cache,
                     cache_hits := st.cache_hits, cache_misses := st.cache_misses + 1 },
          upstreamCalled := true } := by
    simp [make_request, hmiss, hok]
  have hfirst : find_by_title u api_key ttl maxsize now1 title exact st
      = { res := .ok ⟨{ data with
              articles := some (arts.filter (titleMatches title exact)),
              totalArticles := Int.ofNat (arts.filter (titleMatches title exact)).length },
            false⟩,
          state := { cache := cacheSet maxsize ttl now1
                        (generate_cache_key "search" (searchParams
                          (if exact then "\"" ++ title ++ "\"" else title) 50 "en" "us"
                          "relevance")) data st.cache,
                     cache_hits := st.cache_hits, cache_misses := st.cache_misses + 1 },
          upstreamCalled := true } := by
    simp only [find_by_title, search_articles, hreq1, hdata,
      titleFilter_ok title exact arts htitles]
  have hhit : cacheGet ttl now2 (generate_cache_key "search"
      (searchParams (if exact then "\"" ++ title ++ "\"" else title) 50 "en" "us" "relevance"))
      (cacheSet maxsize ttl now1
        (generate_cache_key "search" (searchParams
          (if exact then "\"" ++ title ++ "\"" else title) 50 "en" "us" "relevance"))
        data st.cache) = some data := cacheGet_cacheSet_same hwindow
  have hreq2 : make_request u api_key ttl maxsize now2 "search"
      (searchParams (if exact then "\"" ++ title ++ "\"" else title) 50 "en" "us" "relevance")
      { cache := cacheSet maxsize ttl now1
          (generate_cache_key "search" (searchParams
            (if exact then "\"" ++ title ++ "\"" else title) 50 "en" "us" "relevance"))
          data st.cache,
        cache_hits := st.cache_hits, cache_misses := st.cache_misses + 1 }
      = { res := .ok ⟨data, true⟩,
          state := { cache := cacheSet maxsize ttl now1
                        (generate_cache_key "search" (searchParams
                          (if exact then "\"" ++ title ++ "\"" else title) 50 "en" "us"
                          "relevance")) data st.cache,
                     cache_hits := st.cache_hits + 1, cache_misses := st.cache_misses + 1 },
          upstreamCalled := false } := by
    simp [make_request, hhit]
  have hsecond : find_by_title u api_key ttl maxsize now2 title exact
      { cache := cacheSet maxsize ttl now1
          (generate_cache_key "search" (searchParams
            (if exact then "\"" ++ title ++ "\"" else title) 50 "en" "us" "relevance"))
          data st.cache,
        cache_hits := st.cache_hits, cache_misses := st.cache_misses + 1 }
      = { res := .ok ⟨{ data with
              articles := some (arts.filter (titleMatches title exact)),
              totalArticles := Int.ofNat (arts.filter (titleMatches title exact)).length },
            true⟩,
          state := { cache := cacheSet maxsize ttl now1
                        (generate_cache_key "search" (searchParams
                          (if exact then "\"" ++ title ++ "\"" else title) 50 "en" "us"
                          "relevance")) data st.cache,
                     cache_hits := st.cache_hits + 1, cache_misses := st.cache_misses + 1 },
          upstreamCalled := false } := by
    simp only [find_by_title, search_articles, hreq2, hdata,
      titleFilter_ok title exact arts htitles]
  have hloop : authorLoop (pyLower author) count [] arts2
      = (arts2.filter (authorMatch (pyLower author))).take count := by
    have h0 := authorLoop_eq_take_filter (pyLower author) count arts2 []
      (by simpa using hcount2)
    simpa using h0
  have hreq1a : make_request u api_key ttl maxsize now1 "search"
      (searchParams author 100 "en" "us" "relevance") st2
      = { res := .ok ⟨data2, false⟩,
          state := { cache := cacheSet maxsize ttl now1
                        (generate_cache_key "search"
                          (searchParams author 100 "en" "us" "relevance")) data2 st2.cache,
                     cache_hits := st2.cache_hits, cache_misses := st2.cache_misses + 1 },
          upstreamCalled := true } := by
    simp [make_request, hmiss2, hok2]
  have hfirsta : find_by_author u api_key ttl maxsize now1 author count st2
      = { res := .ok ⟨{ data2 with
              articles := some ((arts2.filter (authorMatch (pyLower author))).take count),
              totalArticles :=
                Int.ofNat ((arts2.filter (authorMatch (pyLower author))).take count).length },
            false⟩,
          state := { cache := cacheSet maxsize ttl now1
                        (generate_cache_key "search"
                          (searchParams author 100 "en" "us" "relevance")) data2 st2.cache,
                     cache_hits := st2.cache_hits, cache_misses := st2.cache_misses + 1 },
          upstreamCalled := true } := by
    simp only [find_by_author, search_articles, hreq1a, hdata2, hloop]
  have hhita : cacheGet ttl now2 (generate_cache_key "search"
      (searchParams author 100 "en" "us" "relevance"))
      (cacheSet maxsize ttl now1
        (generate_cache_key "search" (searchParams author 100 "en" "us" "relevance"))
        data2 st2.cache) = some data2 := cacheGet_cacheSet_same hwindow
  have hreq2a : make_request u api_key ttl maxsize now2 "search"
      (searchParams author 100 "en" "us" "relevance")
      { cache := cacheSet maxsize ttl now1
          (generate_cache_key "search" (searchParams author 100 "en" "us" "relevance"))
          data2 st2.cache,
        cache_hits := st2.cache_hits, cache_misses := st2.cache_misses + 1 }
      = { res := .ok ⟨data2, true⟩,
          state := { cache := cacheSet maxsize ttl now1
                        (generate_cache_key "search"
                          (searchParams author 100 "en" "us" "relevance")) data2 st2.cache,
                     cache_hits := st2.cache_hits + 1, cache_misses := st2.cache_misses + 1 },
          upstreamCalled := false } := by
    simp [make_request, hhita]
  have hseconda : find_by_author u api_key ttl maxsize now2 author count
      { cache := cacheSet maxsize ttl now1
          (generate_cache_key "search" (searchParams author 100 "en" "us" "relevance"))
          data2 st2.cache,
        cache_hits := st2.cache_hits, cache_misses := st2.cache_misses + 1 }
      = { res := .ok ⟨{ data2 with
              articles := some ((arts2.filter (authorMatch (pyLower author))).take count),
              totalArticles :=
                Int.ofNat ((arts2.filter (authorMatch (pyLower author))).take count).length },
            true⟩,
          state := { cache := cacheSet maxsize ttl now1
                        (generate_cache_key "search"
                          (searchParams author 100 "en" "us" "relevance")) data2 st2.cache,
                     cache_hits := st2.cache_hits + 1, cache_misses := st2.cache_misses + 1 },
          upstreamCalled := false } := by
    simp only [find_by_author, search_articles, hreq2a, hdata2, hloop]
  rw [hfirst, hfirsta]
  exact ⟨hhit, by rw [hsecond], by rw [hsecond], rfl, by rw [hsecond],
         hhita, by rw [hseconda], by rw [hseconda], rfl, by rw [hseconda]⟩

theorem filtering_after_cache_and_raw_stored_witness :
    (300 : Nat) < 0 + 600 ∧
    cacheGet 600 300 (generate_cache_key "search"
        (searchParams "Election" 50 "en" "us" "relevance"))
      (find_by_title
        (fun _ _ => Outcome.ok ⟨2, some
          [⟨some "Election Night Results", some ⟨some "Reuters", none⟩, "b1"⟩,
           ⟨some "Weather Update", some ⟨some "CNN", none⟩, "b2"⟩]⟩)
        "KEY" 600 1000 0 "Election" false ⟨[], 0, 0⟩).state.cache =
      some ⟨2, some [⟨some "Election Night Results", some ⟨some "Reuters", none⟩, "b1"⟩,
                     ⟨some "Weather Update", some ⟨some "CNN", none⟩, "b2"⟩]⟩ ∧
    (find_by_title
        (fun _ _ => Outcome.ok ⟨2, some
          [⟨some "Election Night Results", some ⟨some "Reuters", none⟩, "b1"⟩,
           ⟨some "Weather Update", some ⟨some "CNN", none⟩, "b2"⟩]⟩)
        "KEY" 600 1000 300 "Election" false
        (find_by_title
          (fun _ _ => Outcome.ok ⟨2, some
            [⟨some "Election Night Results", some ⟨some "Reuters", none⟩, "b1"⟩,
             ⟨some "Weather Update", some ⟨some "CNN", none⟩, "b2"⟩]⟩)
          "KEY" 600 1000 0 "Election" false ⟨[], 0, 0⟩).state).upstreamCalled = false ∧
    (find_by_title
        (fun _ _ => Outcome.ok ⟨2, some
          [⟨some "Election Night Results", some ⟨some "Reuters", none⟩, "b1"⟩,
           ⟨some "Weather Update", some ⟨some "CNN", none⟩, "b2"⟩]⟩)
        "KEY" 600 1000 300 "Election" false
        (find_by_title
          (fun _ _ => Outcome.ok ⟨2, some
            [⟨some "Election Night Results", some ⟨some "Reuters", none⟩, "b1"⟩,
             ⟨some "Weather Update", some ⟨some "CNN", none⟩, "b2"⟩]⟩)
          "KEY" 600 1000 0 "Election" false ⟨[], 0, 0⟩).state).res =
      .ok ⟨⟨1, some [⟨some "Election Night Results", some ⟨some "Reuters", none⟩, "b1"⟩]⟩,
        true⟩ ∧
    cacheGet 600 300 (generate_cache_key "search"
        (searchParams "Reuters" 100 "en" "us" "relevance"))
      (find_by_author
        (fun _ _ => Outcome.ok ⟨2, some
          [⟨some "Election Night Results", some ⟨some "Reuters", none⟩, "b1"⟩,
           ⟨some "Weather Update", some ⟨some "CNN", none⟩, "b2"⟩]⟩)
        "KEY" 600 1000 0 "Reuters" 1 ⟨[], 0, 0⟩).state.cache =
      some ⟨2, some [⟨some "Election Night Results", some ⟨some "Reuters", none⟩, "b1"⟩,
                     ⟨some "Weather Update", some ⟨some "CNN", none⟩, "b2"⟩]⟩ ∧
    (find_by_author
        (fun _ _ => Outcome.ok ⟨2, some
          [⟨some "Election Night Results", some ⟨some "Reuters", none⟩, "b1"⟩,
           ⟨some "Weather Update", some ⟨some "CNN", none⟩, "b2"⟩]⟩)
        "KEY" 600 1000 300 "Reuters" 1
        (find_by_author
          (fun _ _ => Outcome.ok ⟨2, some
            [⟨some "Election Night Results", some ⟨some "Reuters", none⟩, "b1"⟩,
             ⟨some "Weather Update", some ⟨some "CNN", none⟩, "b2"⟩]⟩)
          "KEY" 600 1000 0 "Reuters" 1 ⟨[], 0, 0⟩).state).upstreamCalled = false ∧
    (find_by_author
        (fun _ _ => Outcome.ok ⟨2, some
          [⟨some "Election Night Results", some ⟨some "Reuters", none⟩, "b1"⟩,
           ⟨some "Weather Update", some ⟨some "CNN", none⟩, "b2"⟩]⟩)
        "KEY" 600 1000 300 "Reuters" 1
        (find_by_author
          (fun _ _ => Outcome.ok ⟨2, some
            [⟨some "Election Night Results", some ⟨some "Reuters", none⟩, "b1"⟩,
             ⟨some "Weather Update", some ⟨some "CNN", none⟩, "b2"⟩]⟩)
          "KEY" 600 1000 0 "Reuters" 1 ⟨[], 0, 0⟩).state).res =
      .ok ⟨⟨1, some [⟨some "Election Night Results", some ⟨some "Reuters", none⟩, "b1"⟩]⟩,
        true⟩ := by
  have h := filtering_after_cache_and_raw_stored
    (fun _ _ => Outcome.ok ⟨2, some
      [⟨some "Election Night Results", some ⟨some "Reuters", none⟩, "b1"⟩,
       ⟨some "Weather Update", some ⟨some "CNN", none⟩, "b2"⟩]⟩)
    "KEY" 600 1000 0 300 "Election" false ⟨[], 0, 0⟩
    ⟨2, some [⟨some "Election Night Results", some ⟨some "Reuters", none⟩, "b1"⟩,
              ⟨some "Weather Update", some ⟨some "CNN", none⟩, "b2"⟩]⟩
    [⟨some "Election Night Results", some ⟨some "Reuters", none⟩, "b1"⟩,
     ⟨some "Weather Update", some ⟨some "CNN", none⟩, "b2"⟩]
    "Reuters" 1 ⟨[], 0, 0⟩
    ⟨2, some [⟨some "Election Night Results", some ⟨some "Reuters", none⟩, "b1"⟩,
              ⟨some "Weather Update", some ⟨some "CNN", none⟩, "b2"⟩]⟩
    [⟨some "Election Night Results", some ⟨some "Reuters", none⟩, "b1"⟩,
     ⟨some "Weather Update", some ⟨some "CNN", none⟩, "b2"⟩]
    rfl rfl rfl (by decide) (by decide) rfl rfl rfl (by decide)
  exact ⟨by decide, h.1, h.2.1, h.2.2.2.2.1, h.2.2.2.2.2.1, h.2.2.2.2.2.2.1,
    h.2.2.2.2.2.2.2.2.2⟩

/-! ## C10: a missing title field escapes as a raw KeyError -/

/-- C10: when the fetched search result contains an article object without a
`title` field, `find_by_title`'s post-filter evaluates `article["title"]` and a
raw `KeyError("title")` propagates — which is none of the three specified error
kinds (those are all generic `Exception`s with a message, `PyErr.exc` here).
The post-filter is thus only safe under the precondition that every fetched
article carries a title field (the hypothesis of the functional-correctness
theorem for `find_by_title`). -/
theorem find_by_title_missing_title_keyerror :
    (find_by_title
        (fun _ _ => Outcome.ok ⟨1, some [⟨none, some ⟨some "Reuters", none⟩, "c1"⟩]⟩)
        "KEY" 600 1000 0 "Election" false ⟨[], 0, 0⟩).res
      = .error (.keyError "title") ∧
    (match PyErr.keyError "title" with
     | .exc _ => true
     | .keyError _ => false) = false := by
  constructor
  · decide
  · decide
